import Mathlib

/-!
Verification of the campus_sched client against its specification.

The repository is a browser scheduling client.  The pieces the claims are
about live in:
  * the localStorage app (src/unnamed/part_000): login-role extraction,
    sample-data loading, event creation and the approve/decline handlers
    over the global `APP` state;
  * the overlap-detection module (src/unnamed/part_001): the fetch wrappers
    `checkEventOverlap`, `checkFacilityAvailability`, `getSuggestedTimes`
    with their catch-clause fallbacks, the drag-and-drop reschedule
    arithmetic, and a mock overlap checker;
  * the notifications module (src/frontend/notifications.js):
    `ApprovalManager.declineEvent` with its empty-reason guard.

Timestamps are modelled as epoch milliseconds (`Int`, or `ℚ` where the code
divides), and the outcome of a `fetch` inside `try`/`catch` as an
`Except String r`: `Except.error msg` is a thrown error caught by the
catch clause, `Except.ok r` a parsed response.
-/

namespace CampusSched

/-- Character-list version of JS `String.prototype.includes`:
`hasSubstring hay needle` is true when `needle` occurs contiguously in `hay`. -/
def hasSubstring : List Char → List Char → Bool
  | [], needle => needle.isEmpty
  | c :: rest, needle => needle.isPrefixOf (c :: rest) || hasSubstring rest needle

/-- JS `s.includes(sub)` on strings, used by `extractRole`. -/
def strContains (s sub : String) : Bool :=
  hasSubstring s.toList sub.toList

/-- `extractRole` (part_000 lines 83–87): role from the login email by
substring matching, "admin" first, then "teacher", else "student". -/
def extractRole (email : String) : String :=
  if strContains email "admin" then "admin"
  else if strContains email "teacher" then "teacher"
  else "student"

/-- An entry of `APP.events` (part_000).  `start_time`/`end_time` are epoch
milliseconds (the code stores ISO strings; the instant is what matters). -/
structure Event where
  id : Int
  schedule_id : Int
  title : String
  start_time : Int
  end_time : Int
  location : String
  status : String
deriving DecidableEq

/-- An entry of `APP.schedules` (part_000). -/
structure Schedule where
  id : Int
  title : String
  description : String
  color : String
  is_public : Bool
  user_id : String
deriving DecidableEq

/-- An entry of `APP.approvals` (part_000).  The app initializes this list
empty and no operation in the source ever appends to it; the field shape
follows the spec's ApprovalRecord. -/
structure ApprovalRecord where
  eventId : Int
  status : String
  reason : Option String
deriving DecidableEq

/-- The global `APP` state of part_000, with the current user's id and role
flattened in (the app dereferences `APP.currentUser` in all modelled paths). -/
structure AppState where
  currentUserId : String
  currentUserRole : String
  schedules : List Schedule
  events : List Event
  approvals : List ApprovalRecord
deriving DecidableEq

/-- `createEvent` (part_000 lines 383–400): appends a new event whose status
is "approved" when the current user's role is "admin" and "pending"
otherwise; `now` is the `Date.now()` used as id.  No other field is
validated. -/
def createEvent (now schedId : Int) (title : String) (startT endT : Int)
    (loc : String) (s : AppState) : AppState :=
  { s with events := s.events ++
      [{ id := now, schedule_id := schedId, title := title,
         start_time := startT, end_time := endT, location := loc,
         status := if s.currentUserRole = "admin" then "approved" else "pending" }] }

/-- `APP.events.find((e) => e.id === id)`: first event with the given id. -/
def findEvent (id : Int) : List Event → Option Event
  | [] => none
  | e :: es => if e.id = id then some e else findEvent id es

/-- Mutation `event.status = st` on the event the JS `find` located:
replaces the status of the first event with the given id. -/
def setStatusFirst (id : Int) (st : String) : List Event → List Event
  | [] => []
  | e :: es => if e.id = id then { e with status := st } :: es
               else e :: setStatusFirst id st es

/-- `approveEvent` (part_000 lines 429–435): unconditionally sets the found
event's status to "approved"; no role or current-status check, no history. -/
def approveEvent (id : Int) (s : AppState) : AppState :=
  { s with events := setStatusFirst id "approved" s.events }

/-- `declineEvent` (part_000 lines 437–443): unconditionally sets the found
event's status to "declined"; takes no reason, no history. -/
def declineEvent (id : Int) (s : AppState) : AppState :=
  { s with events := setStatusFirst id "declined" s.events }

/-- The two sample schedules of `loadSampleData` (part_000 lines 110–127). -/
def sampleSchedules (uid : String) : List Schedule :=
  [ { id := 1, title := "Spring 2025 Classes", description := "All spring classes",
      color := "#3b82f6", is_public := true, user_id := uid },
    { id := 2, title := "Lab Schedule", description := "Weekly lab sessions",
      color := "#10b981", is_public := false, user_id := uid } ]

/-- The two sample events of `loadSampleData` (part_000 lines 129–148);
`now` is `Date.now()`. -/
def sampleEvents (now : Int) : List Event :=
  [ { id := 1, schedule_id := 1, title := "Math 101",
      start_time := now + 86400000, end_time := now + 90000000,
      location := "Room 101", status := "approved" },
    { id := 2, schedule_id := 1, title := "Physics Lab",
      start_time := now + 172800000, end_time := now + 176400000,
      location := "Lab B", status := "pending" } ]

/-- `loadSampleData` (part_000 lines 108–152): populates schedules and events
only when `APP.schedules` is empty, otherwise leaves the state alone. -/
def loadSampleData (now : Int) (s : AppState) : AppState :=
  if s.schedules.length = 0 then
    { s with schedules := sampleSchedules s.currentUserId,
             events := sampleEvents now }
  else s

/-- Result shape of `OverlapDetector.checkEventOverlap` (part_001): the
parsed response, plus the `error` field the catch clause attaches. -/
structure OverlapCheckResult where
  has_overlap : Bool
  conflicting_event : Option Event := none
  error : Option String := none
deriving DecidableEq

/-- `OverlapDetector.checkEventOverlap` (part_001 lines 14–35): returns the
server response; a thrown error is caught and turned into
`\x7bhas_overlap: false, error: message\x7d`. -/
def checkEventOverlap (outcome : Except String OverlapCheckResult) : OverlapCheckResult :=
  match outcome with
  | Except.ok r => r
  | Except.error msg => { has_overlap := false, error := some msg }

/-- Result shape of `OverlapDetector.checkFacilityAvailability` (part_001). -/
structure FacilityAvailabilityResult where
  available : Bool
  conflict_count : Nat := 0
  error : Option String := none
deriving DecidableEq

/-- `OverlapDetector.checkFacilityAvailability` (part_001 lines 41–62): a
thrown error is caught and turned into `\x7bavailable: true, error: message\x7d`. -/
def checkFacilityAvailability (outcome : Except String FacilityAvailabilityResult) :
    FacilityAvailabilityResult :=
  match outcome with
  | Except.ok r => r
  | Except.error msg => { available := true, error := some msg }

/-- A suggested alternative slot as displayed by part_001. -/
structure TimeSlot where
  start_time : Int
  end_time : Int
  day_of_week : String
deriving DecidableEq

/-- Result shape of `OverlapDetector.getSuggestedTimes` (part_001). -/
structure SuggestTimesResult where
  alternatives : List TimeSlot
deriving DecidableEq

/-- `OverlapDetector.getSuggestedTimes` (part_001 lines 68–89): a thrown
error is caught and turned into `\x7balternatives: []\x7d`, with no error field. -/
def getSuggestedTimes (outcome : Except String SuggestTimesResult) : SuggestTimesResult :=
  match outcome with
  | Except.ok r => r
  | Except.error _ => { alternatives := [] }

/-- The mock `OverlapDetector.checkEventOverlap` of the drag-and-drop module
(part_001 lines 251–256): ignores every argument, reports no overlap and no
error. -/
def checkEventOverlapMock (scheduleId : Int) (startTime endTime : String)
    (excludeEventId : Option Int) : OverlapCheckResult :=
  { has_overlap := false }

/-- `duration = (end - start) / (1000 * 60)` as computed by
`DragDropManager.handleEventDroppedOnDate` (part_001 line 324) and
`TimeblockDragDrop.rescheduleEvent` (line 434); JS numbers idealized as ℚ. -/
def durationMinutes (startMs endMs : ℚ) : ℚ :=
  (endMs - startMs) / (1000 * 60)

/-- `newEndTime = newStartTime + duration * 60 * 1000` as computed at
part_001 lines 325 and 435. -/
def rescheduledEnd (newStartMs oldStartMs oldEndMs : ℚ) : ℚ :=
  newStartMs + durationMinutes oldStartMs oldEndMs * 60 * 1000

/-- Observable outcome of `ApprovalManager.declineEvent`: whether the decline
request went out, the reason it carried, and the returned boolean. -/
structure DeclineOutcome where
  requestSent : Bool
  sentReason : Option String
  success : Bool
deriving DecidableEq

/-- `ApprovalManager.declineEvent` (notifications.js lines 228–255): an empty
reason is rejected before any request is made (returns false); otherwise the
request carrying the reason is sent and the result mirrors `response.ok`. -/
def approvalManagerDeclineEvent (reason : String) (serverOk : Bool) : DeclineOutcome :=
  if reason = "" then { requestSent := false, sentReason := none, success := false }
  else { requestSent := true, sentReason := some reason, success := serverOk }

/-- A state whose only event is the pending "Physics Lab" sample event, with
an admin as current user. -/
def pendingState : AppState :=
  { currentUserId := "u1", currentUserRole := "admin", schedules := [],
    events := [{ id := 2, schedule_id := 1, title := "Physics Lab",
                 start_time := 0, end_time := 3600000,
                 location := "Lab B", status := "pending" }],
    approvals := [] }

/-- A state whose only event is already declined, with a student as current
user. -/
def declinedState : AppState :=
  { currentUserId := "s1", currentUserRole := "student", schedules := [],
    events := [{ id := 1, schedule_id := 1, title := "Math 101",
                 start_time := 0, end_time := 3600000,
                 location := "Room 101", status := "declined" }],
    approvals := [] }

/-- A state with one schedule already present (so sample loading is a no-op)
and a teacher as current user. -/
def seededState : AppState :=
  { currentUserId := "u1", currentUserRole := "teacher",
    schedules := [{ id := 1, title := "Spring 2025 Classes",
                    description := "All spring classes", color := "#3b82f6",
                    is_public := true, user_id := "u1" }],
    events := [], approvals := [] }

/-- A fresh state with empty lists, a teacher as current user. -/
def teacherState : AppState :=
  { currentUserId := "t1", currentUserRole := "teacher",
    schedules := [], events := [], approvals := [] }

theorem findEvent_setStatusFirst (id : Int) (st : String) (es : List Event) :
    findEvent id (setStatusFirst id st es)
      = (findEvent id es).map (fun e => { e with status := st }) := by
  induction es with
  | nil => rfl
  | cons e es ih =>
    by_cases h : e.id = id
    · simp [findEvent, setStatusFirst, h]
    · simp [findEvent, setStatusFirst, h, ih]

/-- C1 counterexample: a teacher (non-admin) creating an event — which in
this app carries no approval requirement, the field does not exist — gets
initial status "pending", where the claim requires "approved". -/
theorem c1_counterexample :
    ((createEvent 5 1 "Club Meeting" 0 3600000 "Room 1" teacherState).events.getLast?).map
        Event.status = some "pending"
    ∧ ("pending" : String) ≠ "approved" := by
  exact ⟨rfl, by decide⟩

/-- C1 (amended): `createEvent` appends exactly one event whose initial
status is "approved" iff the current user's role is "admin" and "pending"
otherwise; no approval-requirement input exists or is consulted. -/
theorem c1_initial_status (now schedId : Int) (title : String) (startT endT : Int)
    (loc : String) (s : AppState) :
    ((createEvent now schedId title startT endT loc s).events.getLast?).map Event.status
      = some (if s.currentUserRole = "admin" then "approved" else "pending")
    ∧ (createEvent now schedId title startT endT loc s).events.length
      = s.events.length + 1 := by
  constructor
  · simp [createEvent]
  · simp [createEvent]

/-- C2 counterexample: the localStorage app's `declineEvent` takes no reason
at all, yet declining the pending sample event succeeds — the status becomes
"declined" and no reason is recorded anywhere (`APP.approvals` stays empty);
the claim requires a reasonless decline to fail with MissingReason and leave
the event unchanged. -/
theorem c2_counterexample :
    findEvent 2 (declineEvent 2 pendingState).events
      = some { id := 2, schedule_id := 1, title := "Physics Lab",
               start_time := 0, end_time := 3600000,
               location := "Lab B", status := "declined" }
    ∧ (declineEvent 2 pendingState).approvals = []
    ∧ (declineEvent 2 pendingState).events ≠ pendingState.events := by
  decide

/-- C2 (amended): in `ApprovalManager.declineEvent` an empty reason fails
(returns false) with no request sent, and a non-empty reason is sent with
the decline request; the localStorage app's `declineEvent`, however, takes
no reason, unconditionally sets the found event's status to "declined", and
appends nothing to any approval history. -/
theorem c2_decline_behavior (reason : String) (serverOk : Bool) (id : Int) (s : AppState) :
    (reason = "" → approvalManagerDeclineEvent reason serverOk
        = { requestSent := false, sentReason := none, success := false })
    ∧ (reason ≠ "" → (approvalManagerDeclineEvent reason serverOk).requestSent = true
        ∧ (approvalManagerDeclineEvent reason serverOk).sentReason = some reason)
    ∧ findEvent id (declineEvent id s).events
        = (findEvent id s.events).map (fun e => { e with status := "declined" })
    ∧ (declineEvent id s).approvals = s.approvals := by
  refine ⟨?_, ?_, ?_, rfl⟩
  · intro h
    simp [approvalManagerDeclineEvent, h]
  · intro h
    simp [approvalManagerDeclineEvent, h]
  · exact findEvent_setStatusFirst id "declined" s.events

/-- C2 witness: concrete instances of both guard branches. -/
theorem c2_decline_behavior_witness :
    (approvalManagerDeclineEvent "" true).requestSent = false
    ∧ (approvalManagerDeclineEvent "room unavailable" true).sentReason
        = some "room unavailable" := by
  constructor
  · rw [(c2_decline_behavior "" true 2 pendingState).1 rfl]
  · exact ((c2_decline_behavior "room unavailable" true 2 pendingState).2.1 (by decide)).2

/-- C3 counterexample: with a student as current user, `approveEvent` on an
already-declined event — a transition outside the table, by a role outside
the table — succeeds and changes the status to "approved", instead of
failing with InvalidTransition and leaving the status unchanged. -/
theorem c3_counterexample :
    findEvent 1 (approveEvent 1 declinedState).events
      = some { id := 1, schedule_id := 1, title := "Math 101",
               start_time := 0, end_time := 3600000,
               location := "Room 101", status := "approved" }
    ∧ (approveEvent 1 declinedState).events ≠ declinedState.events := by
  decide

/-- C3 (amended): `approveEvent` and `declineEvent` perform no transition
validation at all: the outcome is independent of the current user's role,
and the first event with the given id gets status "approved" resp.
"declined" whatever its previous status; no InvalidTransition failure
exists. -/
theorem c3_no_transition_validation (s : AppState) (id : Int) (r : String) :
    approveEvent id { s with currentUserRole := r }
      = { approveEvent id s with currentUserRole := r }
    ∧ declineEvent id { s with currentUserRole := r }
      = { declineEvent id s with currentUserRole := r }
    ∧ findEvent id (approveEvent id s).events
      = (findEvent id s.events).map (fun e => { e with status := "approved" })
    ∧ findEvent id (declineEvent id s).events
      = (findEvent id s.events).map (fun e => { e with status := "declined" }) :=
  ⟨rfl, rfl, findEvent_setStatusFirst id "approved" s.events,
   findEvent_setStatusFirst id "declined" s.events⟩

/-- C4 counterexample: approving the pending sample event succeeds — its
status becomes "approved" — yet `APP.approvals` stays empty: the successful
transition appends no ApprovalRecord, so the event's status cannot equal the
resulting state of any latest ApprovalRecord transition. -/
theorem c4_counterexample :
    findEvent 2 (approveEvent 2 pendingState).events
      = some { id := 2, schedule_id := 1, title := "Physics Lab",
               start_time := 0, end_time := 3600000,
               location := "Lab B", status := "approved" }
    ∧ (approveEvent 2 pendingState).approvals = []
    ∧ ¬ (approveEvent 2 pendingState).approvals.length
        = pendingState.approvals.length + 1 := by
  decide

/-- C4 (amended): no operation of the localStorage app ever appends an
ApprovalRecord: `approveEvent`, `declineEvent` and `createEvent` all leave
`APP.approvals` unchanged; an event's status lives solely in its own
`status` field with no linked history. -/
theorem c4_no_history_append (s : AppState) (id now schedId : Int) (title : String)
    (startT endT : Int) (loc : String) :
    (approveEvent id s).approvals = s.approvals
    ∧ (declineEvent id s).approvals = s.approvals
    ∧ (createEvent now schedId title startT endT loc s).approvals = s.approvals :=
  ⟨rfl, rfl, rfl⟩

/-- C5 counterexample: creating an event whose start (100) is not before its
end (50) succeeds — the event is appended with exactly those times and no
InvalidInterval failure occurs. -/
theorem c5_counterexample :
    (createEvent 7 1 "Backwards" 100 50 "R" teacherState).events.getLast?
      = some { id := 7, schedule_id := 1, title := "Backwards",
               start_time := 100, end_time := 50,
               location := "R", status := "pending" }
    ∧ ¬ ((100 : Int) < 50)
    ∧ (createEvent 7 1 "Backwards" 100 50 "R" teacherState).events.length
      = teacherState.events.length + 1 := by
  decide

/-- C5 (amended): `createEvent` performs no interval validation: for every
start and end — including start ≥ end — the event is created carrying
exactly those times, and no InvalidInterval failure path exists. -/
theorem c5_no_interval_validation (now schedId : Int) (title : String)
    (startT endT : Int) (loc : String) (s : AppState) :
    ((createEvent now schedId title startT endT loc s).events.getLast?).map
        (fun e => (e.start_time, e.end_time)) = some (startT, endT)
    ∧ (createEvent now schedId title startT endT loc s).events.length
      = s.events.length + 1 := by
  constructor
  · simp [createEvent]
  · simp [createEvent]

/-- C6 counterexample: the failure path of `getSuggestedTimes` returns
exactly the value a successful empty-suggestions response returns — the
error is indistinguishable from "no suggestions". -/
theorem c6_counterexample :
    getSuggestedTimes (Except.error "network down")
      = getSuggestedTimes (Except.ok { alternatives := [] }) := rfl

/-- C6 (amended): the failure paths of `checkEventOverlap` and
`checkFacilityAvailability` attach the thrown message as an `error` field
(distinguishable from the plain success value, which they return
unchanged), but the failure path of `getSuggestedTimes` returns a bare
empty alternatives list carrying no error kind. -/
theorem c6_error_reporting (msg : String) (r : OverlapCheckResult)
    (f : FacilityAvailabilityResult) :
    (checkEventOverlap (Except.error msg)).error = some msg
    ∧ (checkEventOverlap (Except.error msg)).has_overlap = false
    ∧ (checkFacilityAvailability (Except.error msg)).error = some msg
    ∧ (checkFacilityAvailability (Except.error msg)).available = true
    ∧ checkEventOverlap (Except.ok r) = r
    ∧ checkFacilityAvailability (Except.ok f) = f
    ∧ getSuggestedTimes (Except.error msg) = { alternatives := [] } :=
  ⟨rfl, rfl, rfl, rfl, rfl, rfl, rfl⟩

/-- C7: the reschedule arithmetic shared by `handleEventDroppedOnDate` and
`rescheduleEvent` preserves duration: the interval placed at any new start
has the same `durationMinutes` as the original. -/
theorem c7_duration_preserved (oldStart oldEnd newStart : ℚ) :
    durationMinutes newStart (rescheduledEnd newStart oldStart oldEnd)
      = durationMinutes oldStart oldEnd := by
  simp only [durationMinutes, rescheduledEnd]
  ring

/-- C8: the role assigned at login is determined solely by substring
matching on the email — "admin" when it contains "admin" (taking precedence
over "teacher"), else "teacher" when it contains "teacher", else
"student" — and `extractRole` is total with exactly these three possible
values. -/
theorem c8_extract_role (email : String) :
    (strContains email "admin" = true → extractRole email = "admin")
    ∧ (strContains email "admin" = false → strContains email "teacher" = true →
        extractRole email = "teacher")
    ∧ (strContains email "admin" = false → strContains email "teacher" = false →
        extractRole email = "student")
    ∧ (extractRole email = "admin" ∨ extractRole email = "teacher"
        ∨ extractRole email = "student") := by
  cases h1 : strContains email "admin" <;> cases h2 : strContains email "teacher" <;>
    simp [extractRole, h1, h2]

/-- C8 witness: the three demo addresses land on their three roles. -/
theorem c8_extract_role_witness :
    extractRole "admin@campus.edu" = "admin"
    ∧ extractRole "teacher@campus.edu" = "teacher"
    ∧ extractRole "student@campus.edu" = "student" :=
  ⟨(c8_extract_role "admin@campus.edu").1 (by decide),
   (c8_extract_role "teacher@campus.edu").2.1 (by decide) (by decide),
   (c8_extract_role "student@campus.edu").2.2.1 (by decide) (by decide)⟩

/-- C9: the mock `checkEventOverlap` of the drag-and-drop module reports
`has_overlap: false` with no error and no conflicting event for every
input — in particular for a schedule with zero booked events (it consults
no scope at all). -/
theorem c9_mock_overlap (scheduleId : Int) (startTime endTime : String)
    (excludeEventId : Option Int) :
    (checkEventOverlapMock scheduleId startTime endTime excludeEventId).has_overlap = false
    ∧ (checkEventOverlapMock scheduleId startTime endTime excludeEventId).error = none
    ∧ (checkEventOverlapMock scheduleId startTime endTime
        excludeEventId).conflicting_event = none :=
  ⟨rfl, rfl, rfl⟩

/-- C10: `loadSampleData` is idempotent on the app state: with non-empty
`APP.schedules` it changes nothing, and running it twice equals running it
once. -/
theorem c10_load_sample_idempotent (now : Int) (s : AppState) :
    (s.schedules ≠ [] → loadSampleData now s = s)
    ∧ loadSampleData now (loadSampleData now s) = loadSampleData now s := by
  constructor
  · intro h
    have hlen : ¬ s.schedules.length = 0 := by
      simpa [List.length_eq_zero] using h
    simp [loadSampleData, hlen]
  · by_cases h : s.schedules.length = 0
    · simp [loadSampleData, h, sampleSchedules]
    · simp [loadSampleData, h]

/-- C10 witness: on a state that already holds a schedule, loading the
sample data is the identity. -/
theorem c10_load_sample_idempotent_witness :
    loadSampleData 0 seededState = seededState :=
  (c10_load_sample_idempotent 0 seededState).1 (by decide)

end CampusSched
